import Mathlib

/-!
Shallow embedding of `reana_client/cli/files.py`: the three click commands
`list` (function `get_files`), `download` (function `download_files`) and
`upload` (function `upload_files`).

Modelling conventions:
- Option/flag values after click's resolution (flag value, else environment
  fallback, else `None`) are `Option String`; Python truthiness of such a
  value is `pyTruthy`.
- The injected client (`ctx.obj.client`), the `tablib` export routine and
  `click_table_printer` from `reana_commons` are opaque external
  collaborators: they are fields of an `Env` record, each returning
  `Except Exc _` since any Python call may raise.
- Python exceptions are `Exc`, distinguishing the classes the module's
  `except` clauses dispatch on: `OSError`, `FileUploadError` (from
  `reana_client.errors`, not under `src/`; modelled from the spec as the
  distinguished upload-error kind), and any other `Exception`.
- The filesystem is an explicit `FS` state (association list of files plus a
  set of directories); `os.path.join`, `os.path.dirname` and `os.makedirs`
  follow the posix semantics the code relies on.  Whether `open(path, "wb")`
  succeeds is an oracle `Env.writable`.
- A command produces a `CmdOut`: exit status (`sys.exit(1)` versus normal
  termination 0), the `click.echo` trace, the `logging` trace (structured:
  one constructor per logging call site, carrying the interpolated data) and
  the trace of remote client invocations.
-/

/-- Binary file content (`bytes` in Python). -/
abbrev Bytes := List Nat

/-- A file record returned by the remote listing call: the
name/size/last-modified triple the code projects out. -/
structure FileRecord where
  name : String
  size : Nat
  lastModified : String
deriving Repr, DecidableEq

/-- Python exception classes the module's except clauses distinguish.
`fileUploadError` is modelled from the spec: `FileUploadError` lives in
`reana_client/errors.py`, which is not under `src/`; the spec describes it as
the distinguished upload-error kind raised by `upload_to_server`. -/
inductive Exc where
  | osError (msg : String)
  | fileUploadError (msg : String)
  | other (msg : String)
deriving Repr, DecidableEq

/-- The text `str(e)` of an exception. -/
def Exc.str : Exc → String
  | .osError m => m
  | .fileUploadError m => m
  | .other m => m

/-- Whether the exception is an `OSError` (matched by `except OSError`). -/
def Exc.isOSError : Exc → Bool
  | .osError _ => true
  | _ => false

/-- The injected client object `ctx.obj.client`: an opaque collaborator whose
methods may raise. -/
structure Client where
  get_files : String → String → Except Exc (List FileRecord)
  download_file : String → String → String → Except Exc Bytes
  upload_to_server : String → String → String → Except Exc (List String)

/-- Local filesystem state: files (path with binary content) and existing
directories. -/
structure FS where
  files : List (String × Bytes)
  dirs : List String
deriving Repr, DecidableEq

/-- Content stored at a path, if any. -/
def FS.lookup (fs : FS) (p : String) : Option Bytes :=
  (fs.files.find? (fun e => e.1 == p)).map (fun e => e.2)

/-- Embedding of `os.path.exists` over the `FS` state (for the empty string
it is always `False` in Python). -/
def FS.existsPath (fs : FS) (p : String) : Bool :=
  p != "" && (fs.files.any (fun e => e.1 == p) || fs.dirs.any (fun d => d == p))

/-- Writing a file (`open(path, "wb")` followed by `f.write`): overwrites any
previous content at the path. -/
def FS.write (fs : FS) (p : String) (c : Bytes) : FS :=
  { fs with files := (p, c) :: fs.files.filter (fun e => e.1 != p) }

/-- Whether a string starts with a slash. -/
def headIsSlash (s : String) : Bool :=
  match s.data with
  | [] => false
  | c :: _ => c == '/'

/-- Whether a string ends with a slash. -/
def lastIsSlash (s : String) : Bool :=
  match s.data.getLast? with
  | none => false
  | some c => c == '/'

/-- Embedding of `os.path.join` for two arguments (posix semantics). -/
def ospath_join (a b : String) : String :=
  if headIsSlash b then b
  else if a == "" || lastIsSlash a then a ++ b
  else a ++ "/" ++ b

/-- Index of the last slash in a character list, if any. -/
def lastSlashPos : List Char → Option Nat
  | [] => none
  | c :: rest =>
      match lastSlashPos rest with
      | some i => some (i + 1)
      | none => if c == '/' then some 0 else none

/-- Embedding of `os.path.dirname` (posix semantics): the text before the
final slash, with trailing slashes stripped unless the prefix is all
slashes. -/
def dirname (p : String) : String :=
  match lastSlashPos p.data with
  | none => ""
  | some i =>
      let head := p.data.take (i + 1)
      if head.all (fun c => c == '/') then String.mk head
      else String.mk ((head.reverse.dropWhile (fun c => c == '/')).reverse)

/-- Chain of ancestor directories created by `os.makedirs` (fuelled by the
path length; `dirname` shortens the path). -/
def dirChain : Nat → String → List String
  | 0, _ => []
  | fuel + 1, p =>
      let d := dirname p
      if d == "" || d == p then [p]
      else p :: dirChain fuel d

/-- Embedding of `os.makedirs`: creates the directory and its missing
ancestors; on the empty path Python raises `FileNotFoundError` (an
`OSError`). -/
def os_makedirs (fs : FS) (p : String) : Except Exc FS :=
  if p == "" then .error (.osError "")
  else .ok { fs with dirs := dirChain (p.data.length + 1) p ++ fs.dirs }

/-- One `click.echo` event: the text, the `click.style` foreground colour (if
any) and whether it goes to the error stream. -/
structure Echo where
  text : String
  fg : Option String
  err : Bool
deriving Repr, DecidableEq

/-- A red styled echo to the error stream. -/
def redErrEcho (t : String) : Echo := ⟨t, some "red", true⟩

/-- A green styled echo to the standard stream. -/
def greenEcho (t : String) : Echo := ⟨t, some "green", false⟩

/-- An unstyled echo to the standard stream. -/
def plainEcho (t : String) : Echo := ⟨t, none, false⟩

/-- Structured logging trace: one constructor per `logging` call site in the
module, carrying the data interpolated into the message. -/
inductive LogEvent where
  | debugCommand (path : String)
  | debugParam (name value : String)
  | infoWorkflowSelected (w : String)
  | infoFileDownloaded (file dir : String)
  | debugTraceback (e : Exc)
  | debugExcStr (e : Exc)
deriving Repr, DecidableEq

/-- Whether a log event carries the string `t` as (part of) its interpolated
payload: the rendering of the traceback and of `str(e)` contains the
exception text, a parameter dump line contains the parameter value, and so
on. -/
def LogEvent.mentions (t : String) : LogEvent → Bool
  | .debugCommand p => p == t
  | .debugParam _ v => v == t
  | .infoWorkflowSelected w => w == t
  | .infoFileDownloaded f d => f == t || d == t
  | .debugTraceback e => e.str == t
  | .debugExcStr e => e.str == t

/-- Trace of invocations of the remote client's methods. -/
inductive RemoteCall where
  | getFiles (w tok : String)
  | downloadFile (w f tok : String)
  | uploadToServer (w f tok : String)
deriving Repr, DecidableEq

/-- Observable outcome of one command invocation. -/
structure CmdOut where
  exit : Nat
  echoes : List Echo
  logs : List LogEvent
  calls : List RemoteCall
  fs : FS
deriving Repr, DecidableEq

/-- Output of one iteration of a per-file loop, and of the loop itself. -/
structure StepOut where
  fs : FS
  echoes : List Echo
  logs : List LogEvent
  calls : List RemoteCall
deriving Repr, DecidableEq

/-- Python truthiness of an optional string (`None` and `""` are falsy). -/
def pyTruthy : Option String → Bool
  | none => false
  | some s => s != ""

/-- Rendering `str(value)` of an optional string parameter (`None` renders
as the word None). -/
def pyStrOpt : Option String → String
  | none => "None"
  | some s => s

/-- A single-quote character, for Python tuple reprs. -/
def pyQuote : String := String.singleton (Char.ofNat 39)

/-- Python repr of a string (quoting only; escaping is irrelevant here). -/
def pyReprStr (s : String) : String := pyQuote ++ s ++ pyQuote

/-- Rendering `str(value)` of a tuple-of-strings parameter. -/
def pyStrTuple : List String → String
  | [] => "()"
  | [x] => "(" ++ pyReprStr x ++ ",)"
  | xs => "(" ++ String.intercalate ", " (xs.map pyReprStr) ++ ")"

/-- Modelled from the spec: the fixed missing-token message
`ERROR_MESSAGES` maps to; the `reana_client/config.py` module holding
the dictionary is not under `src/`.  Only its fixedness matters. -/
def missing_access_token_message : String :=
  "Please provide your access token by using the -at/--access-token flag, or by setting the REANA_ACCESS_TOKEN environment variable."

/-- The fixed missing-workflow message printed by all three commands. -/
def missing_workflow_message : String :=
  "Workflow name must be provided either with `--workflow` option or with REANA_WORKON environment variable"

/-- The red failure message of the list command. -/
def listFailMsg (w : String) (e : Exc) : String :=
  "Something went wrong while retrieving file list for workflow " ++ w ++ ":\n" ++ e.str

/-- A `tablib.Dataset` as observed here: headers plus string rows. -/
structure Dataset where
  headers : List String
  rows : List (List String)
deriving Repr, DecidableEq

/-- Embedding of `tablib.Dataset.subset(rows=None, cols=cols)`: keep the
named columns, in the order given. -/
def Dataset.subset (ds : Dataset) (cols : List String) : Dataset :=
  { headers := cols
    rows := ds.rows.map (fun row =>
      cols.map (fun c =>
        match ds.headers.indexOf? c with
        | some i => row.getD i ""
        | none => "")) }

/-- The external world a command runs against: the injected client, whether
a path can be opened for writing, the `tablib` export routine and
`click_table_printer` (both third-party, hence oracles returning the text
they emit, or an exception). -/
structure Env where
  client : Client
  writable : String → Bool
  exportFn : String → Dataset → Except Exc String
  tablePrinter : List String → List String → List (List String) → Except Exc String

/-- The column headers of the listing table. -/
def listHeaders : List String := ["name", "size", "last-modified"]

/-- The projection of the remote file records into string triples. -/
def listRows (response : List FileRecord) : List (List String) :=
  response.map (fun f => [f.name, toString f.size, f.lastModified])

/-- The `tablib` dataset built from the projected rows, column-filtered when
filters were given. -/
def listDataset (_filter : List String) (response : List FileRecord) : Dataset :=
  let tablib_data : Dataset := { headers := listHeaders, rows := listRows response }
  if _filter != [] then tablib_data.subset _filter else tablib_data

/-- The debug dump of `ctx.params` at the top of the list command. -/
def listParamDump (workflow : Option String) (_filter : List String)
    (output_format : Option String) (access_token : Option String) : List LogEvent :=
  [LogEvent.debugCommand "reana-client.files.list",
   LogEvent.debugParam "workflow" (pyStrOpt workflow),
   LogEvent.debugParam "_filter" (pyStrTuple _filter),
   LogEvent.debugParam "output_format" (pyStrOpt output_format),
   LogEvent.debugParam "access_token" (pyStrOpt access_token)]

/-- Embedding of the `list` command (`get_files` in the source). -/
def get_files (env : Env) (workflow : Option String) (_filter : List String)
    (output_format : Option String) (access_token : Option String) (fs : FS) : CmdOut :=
  let logs := listParamDump workflow _filter output_format access_token
  if !(pyTruthy access_token) then
    { exit := 1, echoes := [redErrEcho missing_access_token_message],
      logs := logs, calls := [], fs := fs }
  else if pyTruthy workflow then
    let w := workflow.getD ""
    let tok := access_token.getD ""
    let logs := logs ++ [LogEvent.infoWorkflowSelected w]
    match env.client.get_files w tok with
    | .ok response =>
        if pyTruthy output_format then
          match env.exportFn (output_format.getD "") (listDataset _filter response) with
          | .ok s =>
              { exit := 0, echoes := [plainEcho s], logs := logs,
                calls := [RemoteCall.getFiles w tok], fs := fs }
          | .error e =>
              { exit := 0, echoes := [redErrEcho (listFailMsg w e)],
                logs := logs ++ [LogEvent.debugTraceback e, LogEvent.debugExcStr e],
                calls := [RemoteCall.getFiles w tok], fs := fs }
        else
          match env.tablePrinter listHeaders _filter (listRows response) with
          | .ok s =>
              { exit := 0, echoes := [plainEcho s], logs := logs,
                calls := [RemoteCall.getFiles w tok], fs := fs }
          | .error e =>
              { exit := 0, echoes := [redErrEcho (listFailMsg w e)],
                logs := logs ++ [LogEvent.debugTraceback e, LogEvent.debugExcStr e],
                calls := [RemoteCall.getFiles w tok], fs := fs }
    | .error e =>
        { exit := 0, echoes := [redErrEcho (listFailMsg w e)],
          logs := logs ++ [LogEvent.debugTraceback e, LogEvent.debugExcStr e],
          calls := [RemoteCall.getFiles w tok], fs := fs }
  else
    { exit := 0, echoes := [redErrEcho missing_workflow_message],
      logs := logs, calls := [], fs := fs }

/-- The per-file error report of the download command: `except OSError`
prints the could-not-be-written message, the fallback `except Exception`
prints the could-not-be-downloaded message with the exception text. -/
def downloadErrEcho (f : String) (e : Exc) : Echo :=
  if e.isOSError then redErrEcho ("File " ++ f ++ " could not be written.")
  else redErrEcho ("File " ++ f ++ " could not be downloaded: " ++ e.str)

/-- One iteration of the download command's per-file loop. -/
def download_step (env : Env) (w tok output_directory : String) (f : String) (fs : FS) : StepOut :=
  match env.client.download_file w f tok with
  | .error e =>
      { fs := fs, echoes := [downloadErrEcho f e],
        logs := [LogEvent.debugTraceback e, LogEvent.debugExcStr e],
        calls := [RemoteCall.downloadFile w f tok] }
  | .ok binary_file =>
      let logs0 := [LogEvent.infoFileDownloaded f output_directory]
      let outputs_file_path := ospath_join output_directory f
      let d := dirname outputs_file_path
      match (if fs.existsPath d then Except.ok fs else os_makedirs fs d) with
      | .error e =>
          { fs := fs, echoes := [downloadErrEcho f e],
            logs := logs0 ++ [LogEvent.debugTraceback e, LogEvent.debugExcStr e],
            calls := [RemoteCall.downloadFile w f tok] }
      | .ok fs1 =>
          if env.writable outputs_file_path then
            { fs := fs1.write outputs_file_path binary_file,
              echoes := [greenEcho ("File " ++ f ++ " downloaded to "
                          ++ output_directory ++ ".")],
              logs := logs0, calls := [RemoteCall.downloadFile w f tok] }
          else
            let e := Exc.osError outputs_file_path
            { fs := fs1, echoes := [downloadErrEcho f e],
              logs := logs0 ++ [LogEvent.debugTraceback e, LogEvent.debugExcStr e],
              calls := [RemoteCall.downloadFile w f tok] }

/-- The download command's per-file loop. -/
def download_loop (env : Env) (w tok outdir : String) : List String → FS → StepOut
  | [], fs => { fs := fs, echoes := [], logs := [], calls := [] }
  | f :: rest, fs =>
      let s1 := download_step env w tok outdir f fs
      let s2 := download_loop env w tok outdir rest s1.fs
      { fs := s2.fs, echoes := s1.echoes ++ s2.echoes,
        logs := s1.logs ++ s2.logs, calls := s1.calls ++ s2.calls }

/-- The debug dump of `ctx.params` at the top of the download command. -/
def downloadParamDump (workflow : Option String) (file_ : List String)
    (output_directory : String) (access_token : Option String) : List LogEvent :=
  [LogEvent.debugCommand "reana-client.files.download",
   LogEvent.debugParam "file_" (pyStrTuple file_),
   LogEvent.debugParam "workflow" (pyStrOpt workflow),
   LogEvent.debugParam "output_directory" output_directory,
   LogEvent.debugParam "access_token" (pyStrOpt access_token)]

/-- Embedding of the `download` command (`download_files` in the source). -/
def download_files (env : Env) (workflow : Option String) (file_ : List String)
    (output_directory : String) (access_token : Option String) (fs : FS) : CmdOut :=
  let logs := downloadParamDump workflow file_ output_directory access_token
  if !(pyTruthy access_token) then
    { exit := 1, echoes := [redErrEcho missing_access_token_message],
      logs := logs, calls := [], fs := fs }
  else if pyTruthy workflow then
    let s := download_loop env (workflow.getD "") (access_token.getD "")
               output_directory file_ fs
    { exit := 0, echoes := s.echoes, logs := logs ++ s.logs,
      calls := s.calls, fs := s.fs }
  else
    { exit := 0, echoes := [redErrEcho missing_workflow_message],
      logs := logs, calls := [], fs := fs }

/-- One iteration of the upload command's per-file loop: `FileUploadError`
is reported with its message text, any other exception with the generic
message that omits the exception text; each returned identifier gets its own
success echo. -/
def upload_step (env : Env) (w tok : String) (filename : String) (fs : FS) : StepOut :=
  match env.client.upload_to_server w filename tok with
  | .ok response =>
      { fs := fs,
        echoes := response.map (fun file_ =>
          greenEcho ("File " ++ file_ ++ " was successfully uploaded.")),
        logs := [], calls := [RemoteCall.uploadToServer w filename tok] }
  | .error e =>
      { fs := fs,
        echoes := [match e with
          | .fileUploadError m =>
              redErrEcho ("Something went wrong while uploading " ++ filename ++ ".\n" ++ m)
          | _ =>
              redErrEcho ("Something went wrong while uploading " ++ filename)],
        logs := [LogEvent.debugTraceback e, LogEvent.debugExcStr e],
        calls := [RemoteCall.uploadToServer w filename tok] }

/-- The upload command's per-file loop. -/
def upload_loop (env : Env) (w tok : String) : List String → FS → StepOut
  | [], fs => { fs := fs, echoes := [], logs := [], calls := [] }
  | f :: rest, fs =>
      let s1 := upload_step env w tok f fs
      let s2 := upload_loop env w tok rest s1.fs
      { fs := s2.fs, echoes := s1.echoes ++ s2.echoes,
        logs := s1.logs ++ s2.logs, calls := s1.calls ++ s2.calls }

/-- The debug dump of `ctx.params` at the top of the upload command. -/
def uploadParamDump (workflow : Option String) (filenames : List String)
    (access_token : Option String) : List LogEvent :=
  [LogEvent.debugCommand "reana-client.files.upload",
   LogEvent.debugParam "filenames" (pyStrTuple filenames),
   LogEvent.debugParam "workflow" (pyStrOpt workflow),
   LogEvent.debugParam "access_token" (pyStrOpt access_token)]

/-- Embedding of the `upload` command (`upload_files` in the source).  The
surrounding framework has already checked that each path exists and resolved
it to an absolute path; the command body only iterates. -/
def upload_files (env : Env) (workflow : Option String) (filenames : List String)
    (access_token : Option String) (fs : FS) : CmdOut :=
  let logs := uploadParamDump workflow filenames access_token
  if !(pyTruthy access_token) then
    { exit := 1, echoes := [redErrEcho missing_access_token_message],
      logs := logs, calls := [], fs := fs }
  else if pyTruthy workflow then
    let s := upload_loop env (workflow.getD "") (access_token.getD "") filenames fs
    { exit := 0, echoes := s.echoes, logs := logs ++ s.logs,
      calls := s.calls, fs := s.fs }
  else
    { exit := 0, echoes := [redErrEcho missing_workflow_message],
      logs := logs, calls := [], fs := fs }

/-! Concrete environments used to exercise the commands on closed inputs. -/

/-- A client whose calls all succeed. -/
def okClient : Client where
  get_files := fun _ _ => .ok [⟨"a.txt", 10, "t1"⟩]
  download_file := fun _ _ _ => .ok [7, 8]
  upload_to_server := fun _ f _ => .ok [f]

/-- An environment whose client and formatting collaborators all succeed. -/
def okEnv : Env where
  client := okClient
  writable := fun _ => true
  exportFn := fun _ _ => .ok "serialized"
  tablePrinter := fun _ _ _ => .ok "table"

/-- A client whose `download_file` raises an `OSError`. -/
def osErrClient : Client where
  get_files := fun _ _ => .ok []
  download_file := fun _ _ _ => .error (.osError "boom")
  upload_to_server := fun _ _ _ => .ok []

/-- An environment whose remote download raises an `OSError`. -/
def osErrEnv : Env :=
  { okEnv with client := osErrClient }

/-- An environment whose filesystem refuses every write. -/
def roEnv : Env :=
  { okEnv with writable := fun _ => false }

/-- A client whose uploads fail in two distinct ways depending on the file. -/
def mixClient : Client where
  get_files := fun _ _ => .ok []
  download_file := fun _ _ _ => .ok [1]
  upload_to_server := fun _ f _ =>
    if f == "bad" then .error (.fileUploadError "denied")
    else if f == "ugly" then .error (.other "oops")
    else .ok [f]

/-- An environment with the mixed-failure upload client. -/
def mixEnv : Env :=
  { okEnv with client := mixClient }

/-- A client whose listing call raises. -/
def listErrClient : Client where
  get_files := fun _ _ => .error (.other "down")
  download_file := fun _ _ _ => .ok []
  upload_to_server := fun _ _ _ => .ok []

/-- An environment whose remote listing raises. -/
def listErrEnv : Env :=
  { okEnv with client := listErrClient }

/-- An empty filesystem. -/
def emptyFS : FS := ⟨[], []⟩

/-- Truthiness of an absent optional value. -/
@[simp] theorem pyTruthy_none : pyTruthy none = false := rfl

/-- Truthiness of a present optional value. -/
@[simp] theorem pyTruthy_some (s : String) : pyTruthy (some s) = (s != "") := rfl

/-- Rendering of a present optional parameter. -/
@[simp] theorem pyStrOpt_some (s : String) : pyStrOpt (some s) = s := rfl

/-- Rendering of an absent optional parameter. -/
@[simp] theorem pyStrOpt_none : pyStrOpt none = "None" := rfl

/-- C1: for each of the three commands, with no access token (`None` after
flag and environment resolution) the command echoes the fixed missing-token
message to the error stream, exits with status 1, and performs no remote
client call. -/
theorem missing_token_blocks_all_commands (env : Env) (workflow : Option String)
    (fil : List String) (ofmt : Option String) (outdir : String) (fs : FS) :
    ((get_files env workflow fil ofmt none fs).exit = 1 ∧
      (get_files env workflow fil ofmt none fs).echoes
        = [redErrEcho missing_access_token_message] ∧
      (get_files env workflow fil ofmt none fs).calls = []) ∧
    ((download_files env workflow fil outdir none fs).exit = 1 ∧
      (download_files env workflow fil outdir none fs).echoes
        = [redErrEcho missing_access_token_message] ∧
      (download_files env workflow fil outdir none fs).calls = []) ∧
    ((upload_files env workflow fil none fs).exit = 1 ∧
      (upload_files env workflow fil none fs).echoes
        = [redErrEcho missing_access_token_message] ∧
      (upload_files env workflow fil none fs).calls = []) :=
  ⟨⟨rfl, rfl, rfl⟩, ⟨rfl, rfl, rfl⟩, ⟨rfl, rfl, rfl⟩⟩

/-- C3: for each of the three commands, with an access token present but no
workflow reference, the command echoes the fixed missing-workflow message to
the error stream, performs no remote client call, and exits with status 0
(normal completion), unlike the status-1 exit used for a missing token. -/
theorem missing_workflow_no_remote_call (env : Env) (fil : List String)
    (ofmt : Option String) (outdir : String) (tok : Option String) (fs : FS)
    (ht : pyTruthy tok = true) :
    ((get_files env none fil ofmt tok fs).exit = 0 ∧
      (get_files env none fil ofmt tok fs).echoes
        = [redErrEcho missing_workflow_message] ∧
      (get_files env none fil ofmt tok fs).calls = []) ∧
    ((download_files env none fil outdir tok fs).exit = 0 ∧
      (download_files env none fil outdir tok fs).echoes
        = [redErrEcho missing_workflow_message] ∧
      (download_files env none fil outdir tok fs).calls = []) ∧
    ((upload_files env none fil tok fs).exit = 0 ∧
      (upload_files env none fil tok fs).echoes
        = [redErrEcho missing_workflow_message] ∧
      (upload_files env none fil tok fs).calls = []) := by
  simp [get_files, download_files, upload_files, ht]

/-- Witness for C3 at a concrete invocation. -/
theorem missing_workflow_no_remote_call_witness :
    ((get_files okEnv none [] none (some "tok") emptyFS).exit = 0 ∧
      (get_files okEnv none [] none (some "tok") emptyFS).echoes
        = [redErrEcho missing_workflow_message] ∧
      (get_files okEnv none [] none (some "tok") emptyFS).calls = []) ∧
    ((download_files okEnv none [] "/tmp/x" (some "tok") emptyFS).exit = 0 ∧
      (download_files okEnv none [] "/tmp/x" (some "tok") emptyFS).echoes
        = [redErrEcho missing_workflow_message] ∧
      (download_files okEnv none [] "/tmp/x" (some "tok") emptyFS).calls = []) ∧
    ((upload_files okEnv none [] (some "tok") emptyFS).exit = 0 ∧
      (upload_files okEnv none [] (some "tok") emptyFS).echoes
        = [redErrEcho missing_workflow_message] ∧
      (upload_files okEnv none [] (some "tok") emptyFS).calls = []) :=
  missing_workflow_no_remote_call okEnv [] none "/tmp/x" (some "tok") emptyFS rfl

/-- C10: download and upload invoked with a token, a workflow and zero FILE
arguments make no remote call, print nothing, and exit with status 0. -/
theorem empty_file_list_no_calls_no_echoes (env : Env) (workflow : Option String)
    (outdir : String) (tok : Option String) (fs : FS)
    (ht : pyTruthy tok = true) (hw : pyTruthy workflow = true) :
    ((download_files env workflow [] outdir tok fs).calls = [] ∧
      (download_files env workflow [] outdir tok fs).echoes = [] ∧
      (download_files env workflow [] outdir tok fs).exit = 0) ∧
    ((upload_files env workflow [] tok fs).calls = [] ∧
      (upload_files env workflow [] tok fs).echoes = [] ∧
      (upload_files env workflow [] tok fs).exit = 0) := by
  simp [download_files, upload_files, download_loop, upload_loop, ht, hw]

/-- Witness for C10 at a concrete invocation. -/
theorem empty_file_list_no_calls_no_echoes_witness :
    ((download_files okEnv (some "w") [] "/tmp/x" (some "tok") emptyFS).calls = [] ∧
      (download_files okEnv (some "w") [] "/tmp/x" (some "tok") emptyFS).echoes = [] ∧
      (download_files okEnv (some "w") [] "/tmp/x" (some "tok") emptyFS).exit = 0) ∧
    ((upload_files okEnv (some "w") [] (some "tok") emptyFS).calls = [] ∧
      (upload_files okEnv (some "w") [] (some "tok") emptyFS).echoes = [] ∧
      (upload_files okEnv (some "w") [] (some "tok") emptyFS).exit = 0) :=
  empty_file_list_no_calls_no_echoes okEnv (some "w") "/tmp/x" (some "tok") emptyFS rfl rfl

/-- The directory itself heads the chain `os.makedirs` creates. -/
theorem dirChain_head (n : Nat) (p : String) : p ∈ dirChain (n + 1) p := by
  simp only [dirChain]
  split
  · simp
  · simp

/-- After a successful `os.makedirs p`, the path `p` exists. -/
theorem existsPath_os_makedirs (fs : FS) (p : String) (hp : p ≠ "") (fs' : FS)
    (h : os_makedirs fs p = .ok fs') : fs'.existsPath p = true := by
  unfold os_makedirs at h
  simp only [beq_iff_eq, hp, if_false] at h
  cases h
  simp only [FS.existsPath, Bool.and_eq_true, Bool.or_eq_true, List.any_eq_true]
  refine ⟨by simp [hp], Or.inr ⟨p, ?_, by simp⟩⟩
  exact List.mem_append_left _ (dirChain_head p.data.length p)

/-- The only failure `os.makedirs` can produce in this model is the
empty-path `OSError`. -/
theorem os_makedirs_error (fs : FS) (p : String) (e : Exc)
    (h : os_makedirs fs p = .error e) : e = .osError "" := by
  unfold os_makedirs at h
  by_cases hp : (p == "") = true
  · rw [if_pos hp] at h
    injection h with h
    exact h.symm
  · rw [if_neg hp] at h
    simp at h

/-- Writing a file preserves the existence of any existing path. -/
theorem FS.existsPath_write_of (fs : FS) (p q : String) (c : Bytes)
    (h : fs.existsPath q = true) : (fs.write p c).existsPath q = true := by
  simp only [FS.existsPath, FS.write, Bool.and_eq_true, Bool.or_eq_true,
    List.any_eq_true] at h ⊢
  obtain ⟨hq, h⟩ := h
  refine ⟨hq, ?_⟩
  rcases h with ⟨e, he, heq⟩ | hd
  · left
    by_cases hqp : q = p
    · exact ⟨(p, c), List.mem_cons_self _ _, by simp [hqp]⟩
    · refine ⟨e, List.mem_cons_of_mem _ (List.mem_filter.mpr ⟨he, ?_⟩), heq⟩
      simp only [beq_iff_eq] at heq
      simp [bne_iff_ne, heq, hqp]
  · exact Or.inr hd

/-- Looking up the path just written returns the written content. -/
theorem FS.lookup_write_self (fs : FS) (p : String) (c : Bytes) :
    (fs.write p c).lookup p = some c := by
  simp [FS.lookup, FS.write, List.find?_cons]

/-- Rewriting the same content at the same path is a no-op. -/
theorem FS.write_write (fs : FS) (p : String) (c : Bytes) :
    (fs.write p c).write p c = fs.write p c := by
  simp only [FS.write, List.filter_cons, bne_self_eq_false, Bool.false_eq_true,
    if_false, List.filter_filter, Bool.and_self]

/-- Characterization of one successful download-loop iteration: the remote
content is fetched, the destination's parent directory is ensured, the file
is written and the success message echoed. -/
theorem download_step_success (env : Env) (w tok outdir f : String) (b : Bytes) (fs : FS)
    (hb : env.client.download_file w f tok = .ok b)
    (hwr : env.writable (ospath_join outdir f) = true)
    (hd : dirname (ospath_join outdir f) ≠ "") :
    ∃ fs1 : FS,
      download_step env w tok outdir f fs =
        { fs := fs1.write (ospath_join outdir f) b,
          echoes := [greenEcho ("File " ++ f ++ " downloaded to " ++ outdir ++ ".")],
          logs := [LogEvent.infoFileDownloaded f outdir],
          calls := [RemoteCall.downloadFile w f tok] } ∧
      fs1.existsPath (dirname (ospath_join outdir f)) = true := by
  unfold download_step
  rw [hb]
  by_cases hex : fs.existsPath (dirname (ospath_join outdir f)) = true
  · refine ⟨fs, ?_, hex⟩
    simp [hex, hwr]
  · simp only [Bool.not_eq_true] at hex
    have hmk : ∃ fs', os_makedirs fs (dirname (ospath_join outdir f)) = .ok fs' := by
      unfold os_makedirs
      simp [hd]
    obtain ⟨fs', hmk⟩ := hmk
    refine ⟨fs', ?_, existsPath_os_makedirs fs _ hd _ hmk⟩
    simp [hex, hmk, hwr]

/-- C4: downloading a file whose remote fetch succeeds writes exactly the
fetched binary content to the output directory joined with the (possibly
nested) file name, ensures the parent directory of that path exists, prints
the per-file success message, and exits normally. -/
theorem download_success_writes_file (env : Env) (workflow tok : Option String)
    (f outdir : String) (b : Bytes) (fs : FS)
    (ht : pyTruthy tok = true) (hw : pyTruthy workflow = true)
    (hb : env.client.download_file (workflow.getD "") f (tok.getD "") = .ok b)
    (hwr : env.writable (ospath_join outdir f) = true)
    (hd : dirname (ospath_join outdir f) ≠ "") :
    (download_files env workflow [f] outdir tok fs).echoes
      = [greenEcho ("File " ++ f ++ " downloaded to " ++ outdir ++ ".")] ∧
    (download_files env workflow [f] outdir tok fs).fs.lookup (ospath_join outdir f)
      = some b ∧
    (download_files env workflow [f] outdir tok fs).fs.existsPath
      (dirname (ospath_join outdir f)) = true ∧
    (download_files env workflow [f] outdir tok fs).exit = 0 := by
  obtain ⟨fs1, hstep, hex1⟩ :=
    download_step_success env (workflow.getD "") (tok.getD "") outdir f b fs hb hwr hd
  refine ⟨?_, ?_, ?_, ?_⟩
  all_goals simp only [download_files, download_loop, ht, hw, Bool.not_true,
    Bool.false_eq_true, if_false, if_true, hstep, List.append_nil]
  · exact FS.lookup_write_self fs1 _ b
  · exact FS.existsPath_write_of fs1 _ _ b hex1

/-- Witness for C4 at a concrete invocation with a nested file name. -/
theorem download_success_writes_file_witness :
    (download_files okEnv (some "w") ["out/result.txt"] "/tmp/x" (some "tok") emptyFS).echoes
      = [greenEcho ("File " ++ "out/result.txt" ++ " downloaded to " ++ "/tmp/x" ++ ".")] ∧
    (download_files okEnv (some "w") ["out/result.txt"] "/tmp/x" (some "tok") emptyFS).fs.lookup
      (ospath_join "/tmp/x" "out/result.txt") = some [7, 8] ∧
    (download_files okEnv (some "w") ["out/result.txt"] "/tmp/x" (some "tok") emptyFS).fs.existsPath
      (dirname (ospath_join "/tmp/x" "out/result.txt")) = true ∧
    (download_files okEnv (some "w") ["out/result.txt"] "/tmp/x" (some "tok") emptyFS).exit = 0 :=
  download_success_writes_file okEnv (some "w") (some "tok") "out/result.txt" "/tmp/x"
    [7, 8] emptyFS rfl rfl rfl rfl (by decide)

/-- C9: re-running the download command over an already written destination
silently overwrites it: the second run prints the same success message, ends
in the same filesystem state, and the destination holds exactly the fetched
content after either run. -/
theorem download_rerun_overwrites_silently (env : Env) (workflow tok : Option String)
    (f outdir : String) (b : Bytes) (fs : FS)
    (ht : pyTruthy tok = true) (hw : pyTruthy workflow = true)
    (hb : env.client.download_file (workflow.getD "") f (tok.getD "") = .ok b)
    (hwr : env.writable (ospath_join outdir f) = true)
    (hd : dirname (ospath_join outdir f) ≠ "") :
    (download_files env workflow [f] outdir tok fs).echoes
      = [greenEcho ("File " ++ f ++ " downloaded to " ++ outdir ++ ".")] ∧
    (download_files env workflow [f] outdir tok
        (download_files env workflow [f] outdir tok fs).fs).echoes
      = (download_files env workflow [f] outdir tok fs).echoes ∧
    (download_files env workflow [f] outdir tok
        (download_files env workflow [f] outdir tok fs).fs).fs
      = (download_files env workflow [f] outdir tok fs).fs ∧
    (download_files env workflow [f] outdir tok fs).fs.lookup (ospath_join outdir f)
      = some b := by
  obtain ⟨fs1, hstep, hex1⟩ :=
    download_step_success env (workflow.getD "") (tok.getD "") outdir f b fs hb hwr hd
  have hfs1 : (download_files env workflow [f] outdir tok fs).fs
      = fs1.write (ospath_join outdir f) b := by
    simp only [download_files, download_loop, ht, hw, Bool.not_true, Bool.false_eq_true,
      if_false, if_true, hstep]
  have hex2 : (fs1.write (ospath_join outdir f) b).existsPath
      (dirname (ospath_join outdir f)) = true :=
    FS.existsPath_write_of fs1 _ _ b hex1
  have hstep2 : download_step env (workflow.getD "") (tok.getD "") outdir f
      (fs1.write (ospath_join outdir f) b) =
      { fs := (fs1.write (ospath_join outdir f) b).write (ospath_join outdir f) b,
        echoes := [greenEcho ("File " ++ f ++ " downloaded to " ++ outdir ++ ".")],
        logs := [LogEvent.infoFileDownloaded f outdir],
        calls := [RemoteCall.downloadFile (workflow.getD "") f (tok.getD "")] } := by
    unfold download_step
    rw [hb]
    simp [hex2, hwr]
  refine ⟨?_, ?_, ?_, ?_⟩
  · simp only [download_files, download_loop, ht, hw, Bool.not_true, Bool.false_eq_true,
      if_false, if_true, hstep, List.append_nil]
  · rw [hfs1]
    simp only [download_files, download_loop, ht, hw, Bool.not_true, Bool.false_eq_true,
      if_false, if_true, hstep, hstep2, List.append_nil]
  · rw [hfs1]
    simp only [download_files, download_loop, ht, hw, Bool.not_true, Bool.false_eq_true,
      if_false, if_true, hstep, hstep2, List.append_nil]
    exact FS.write_write fs1 _ b
  · rw [hfs1]
    exact FS.lookup_write_self fs1 _ b

/-- Witness for C9 at a concrete invocation. -/
theorem download_rerun_overwrites_silently_witness :
    (download_files okEnv (some "w") ["out/result.txt"] "/tmp/x" (some "tok") emptyFS).echoes
      = [greenEcho ("File " ++ "out/result.txt" ++ " downloaded to " ++ "/tmp/x" ++ ".")] ∧
    (download_files okEnv (some "w") ["out/result.txt"] "/tmp/x" (some "tok")
        (download_files okEnv (some "w") ["out/result.txt"] "/tmp/x" (some "tok") emptyFS).fs).echoes
      = (download_files okEnv (some "w") ["out/result.txt"] "/tmp/x" (some "tok") emptyFS).echoes ∧
    (download_files okEnv (some "w") ["out/result.txt"] "/tmp/x" (some "tok")
        (download_files okEnv (some "w") ["out/result.txt"] "/tmp/x" (some "tok") emptyFS).fs).fs
      = (download_files okEnv (some "w") ["out/result.txt"] "/tmp/x" (some "tok") emptyFS).fs ∧
    (download_files okEnv (some "w") ["out/result.txt"] "/tmp/x" (some "tok") emptyFS).fs.lookup
      (ospath_join "/tmp/x" "out/result.txt") = some [7, 8] :=
  download_rerun_overwrites_silently okEnv (some "w") (some "tok") "out/result.txt" "/tmp/x"
    [7, 8] emptyFS rfl rfl rfl rfl (by decide)

/-- C2 counterexample: the claim predicts that a remote `download_file`
failure is always reported with the could-not-be-downloaded message, but an
`OSError` raised by the remote call is caught by the first except clause and
reported with the could-not-be-written message instead. -/
theorem remote_oserror_reported_as_write_failure :
    osErrEnv.client.download_file "w" "a" "tok" = .error (.osError "boom") ∧
    (download_files osErrEnv (some "w") ["a"] "/tmp/x" (some "tok") emptyFS).echoes
      = [redErrEcho "File a could not be written."] ∧
    redErrEcho "File a could not be downloaded: boom" ∉
      (download_files osErrEnv (some "w") ["a"] "/tmp/x" (some "tok") emptyFS).echoes := by
  refine ⟨rfl, rfl, ?_⟩
  decide

/-- C2 amended: when the remote `download_file` call raises, the file is
reported with the could-not-be-downloaded message carrying the exception
text if the exception is not an `OSError`, and with the could-not-be-written
message if it is; and when the remote fetch succeeds but the filesystem
write raises an `OSError`, the file is reported with the could-not-be-written
message.  In every case the remaining files are still processed (the
invocation behaves on them exactly as an invocation without the failing
file, started from the filesystem state the failing file left behind), and
the process exits normally. -/
theorem download_error_dispatch_and_continuation (env : Env) (workflow tok : Option String)
    (f outdir : String) (rest : List String) (fs : FS)
    (ht : pyTruthy tok = true) (hw : pyTruthy workflow = true) :
    (∀ e, env.client.download_file (workflow.getD "") f (tok.getD "") = .error e →
      (download_files env workflow (f :: rest) outdir tok fs).echoes
        = (if e.isOSError then [redErrEcho ("File " ++ f ++ " could not be written.")]
           else [redErrEcho ("File " ++ f ++ " could not be downloaded: " ++ e.str)])
          ++ (download_files env workflow rest outdir tok fs).echoes ∧
      (download_files env workflow (f :: rest) outdir tok fs).fs
        = (download_files env workflow rest outdir tok fs).fs ∧
      (download_files env workflow (f :: rest) outdir tok fs).exit = 0) ∧
    (∀ b, env.client.download_file (workflow.getD "") f (tok.getD "") = .ok b →
      env.writable (ospath_join outdir f) = false →
      (download_files env workflow (f :: rest) outdir tok fs).echoes
        = [redErrEcho ("File " ++ f ++ " could not be written.")]
          ++ (download_files env workflow rest outdir tok
                (download_files env workflow [f] outdir tok fs).fs).echoes ∧
      (download_files env workflow (f :: rest) outdir tok fs).exit = 0) := by
  constructor
  · intro e he
    simp only [download_files, download_loop, ht, hw, Bool.not_true, Bool.false_eq_true,
      if_false, if_true]
    unfold download_step
    rw [he]
    cases hos : e.isOSError <;> simp [downloadErrEcho, hos]
  · intro b hb hwr
    have hstep : ∃ fs1 lg, download_step env (workflow.getD "") (tok.getD "") outdir f fs =
        { fs := fs1, echoes := [redErrEcho ("File " ++ f ++ " could not be written.")],
          logs := lg,
          calls := [RemoteCall.downloadFile (workflow.getD "") f (tok.getD "")] } := by
      unfold download_step
      rw [hb]
      rcases hmk : (if fs.existsPath (dirname (ospath_join outdir f)) = true then Except.ok fs
          else os_makedirs fs (dirname (ospath_join outdir f))) with e1 | fs1
      · have he1 : e1 = .osError "" := by
          by_cases hex : fs.existsPath (dirname (ospath_join outdir f)) = true
          · rw [if_pos hex] at hmk
            simp at hmk
          · rw [if_neg hex] at hmk
            exact os_makedirs_error fs _ e1 hmk
        subst he1
        refine ⟨fs, [LogEvent.infoFileDownloaded f outdir,
          LogEvent.debugTraceback (Exc.osError ""), LogEvent.debugExcStr (Exc.osError "")], ?_⟩
        simp [hmk, downloadErrEcho, Exc.isOSError]
      · refine ⟨fs1, [LogEvent.infoFileDownloaded f outdir,
          LogEvent.debugTraceback (Exc.osError (ospath_join outdir f)),
          LogEvent.debugExcStr (Exc.osError (ospath_join outdir f))], ?_⟩
        simp [hmk, hwr, downloadErrEcho, Exc.isOSError]
    obtain ⟨fs1, lg, hstep⟩ := hstep
    refine ⟨?_, ?_⟩
    · simp only [download_files, download_loop, ht, hw, Bool.not_true, Bool.false_eq_true,
        if_false, if_true, hstep]
    · simp only [download_files, ht, hw, Bool.not_true, Bool.false_eq_true,
        if_false, if_true]

/-- Witness for the amended C2 at concrete invocations: an `OSError` from
the remote call on the first file, and separately a successful fetch whose
filesystem write fails, each with a second file still processed. -/
theorem download_error_dispatch_witness :
    ((download_files osErrEnv (some "w") ("a" :: ["b"]) "/tmp/x" (some "tok") emptyFS).echoes
      = (if (Exc.osError "boom").isOSError
          then [redErrEcho ("File " ++ "a" ++ " could not be written.")]
          else [redErrEcho ("File " ++ "a" ++ " could not be downloaded: "
                  ++ (Exc.osError "boom").str)])
        ++ (download_files osErrEnv (some "w") ["b"] "/tmp/x" (some "tok") emptyFS).echoes ∧
     (download_files osErrEnv (some "w") ("a" :: ["b"]) "/tmp/x" (some "tok") emptyFS).fs
      = (download_files osErrEnv (some "w") ["b"] "/tmp/x" (some "tok") emptyFS).fs ∧
     (download_files osErrEnv (some "w") ("a" :: ["b"]) "/tmp/x" (some "tok") emptyFS).exit
      = 0) ∧
    ((download_files roEnv (some "w") ("a" :: ["b"]) "/tmp/x" (some "tok") emptyFS).echoes
      = [redErrEcho ("File " ++ "a" ++ " could not be written.")]
        ++ (download_files roEnv (some "w") ["b"] "/tmp/x" (some "tok")
              (download_files roEnv (some "w") ["a"] "/tmp/x" (some "tok") emptyFS).fs).echoes ∧
     (download_files roEnv (some "w") ("a" :: ["b"]) "/tmp/x" (some "tok") emptyFS).exit = 0) :=
  ⟨(download_error_dispatch_and_continuation osErrEnv (some "w") (some "tok") "a" "/tmp/x"
      ["b"] emptyFS rfl rfl).1 (.osError "boom") rfl,
   (download_error_dispatch_and_continuation roEnv (some "w") (some "tok") "a" "/tmp/x"
      ["b"] emptyFS rfl rfl).2 [7, 8] rfl rfl⟩

/-- C5: the upload command processes its files independently: each file's
outcome is appended before the outcome of the remaining files, a
`FileUploadError` is reported with its message text, any other exception is
reported with the generic message omitting the exception text, and the
process exits normally. -/
theorem upload_independent_error_dispatch (env : Env) (workflow tok : Option String)
    (f : String) (rest : List String) (fs : FS)
    (ht : pyTruthy tok = true) (hw : pyTruthy workflow = true) :
    (upload_files env workflow (f :: rest) tok fs).echoes
      = (match env.client.upload_to_server (workflow.getD "") f (tok.getD "") with
         | .ok response => response.map (fun x =>
             greenEcho ("File " ++ x ++ " was successfully uploaded."))
         | .error (.fileUploadError m) =>
             [redErrEcho ("Something went wrong while uploading " ++ f ++ ".\n" ++ m)]
         | .error _ => [redErrEcho ("Something went wrong while uploading " ++ f)])
        ++ (upload_files env workflow rest tok fs).echoes ∧
    (upload_files env workflow (f :: rest) tok fs).exit = 0 := by
  simp only [upload_files, upload_loop, ht, hw, Bool.not_true, Bool.false_eq_true,
    if_false, if_true]
  rcases hresp : env.client.upload_to_server (workflow.getD "") f (tok.getD "") with e | resp
  · cases e <;> simp [upload_step, hresp]
  · simp [upload_step, hresp]

/-- Witness for C5 at a concrete invocation: a distinguished upload failure
on the first file, a generic failure on the second, both reported, with the
second still attempted after the first failed. -/
theorem upload_independent_error_dispatch_witness :
    (upload_files mixEnv (some "w") ("bad" :: ["ugly"]) (some "tok") emptyFS).echoes
      = (match mixEnv.client.upload_to_server "w" "bad" "tok" with
         | .ok response => response.map (fun x =>
             greenEcho ("File " ++ x ++ " was successfully uploaded."))
         | .error (.fileUploadError m) =>
             [redErrEcho ("Something went wrong while uploading " ++ "bad" ++ ".\n" ++ m)]
         | .error _ => [redErrEcho ("Something went wrong while uploading " ++ "bad")])
        ++ (upload_files mixEnv (some "w") ["ugly"] (some "tok") emptyFS).echoes ∧
    (upload_files mixEnv (some "w") ("bad" :: ["ugly"]) (some "tok") emptyFS).exit = 0 :=
  upload_independent_error_dispatch mixEnv (some "w") (some "tok") "bad" ["ugly"] emptyFS rfl rfl

/-- C6: on the list command's success path every record returned by the
remote call is projected to the string triple (name, size, last-modified);
with an output format the (filter-restricted, when filters were given)
dataset built from those rows is serialized and echoed, and without one the
table printer is invoked on the same headers, filters and rows. -/
theorem list_success_projection_and_output (env : Env) (workflow tok ofmt : Option String)
    (fil : List String) (fs : FS) (resp : List FileRecord)
    (ht : pyTruthy tok = true) (hw : pyTruthy workflow = true)
    (hresp : env.client.get_files (workflow.getD "") (tok.getD "") = .ok resp) :
    listRows resp = resp.map (fun r => [r.name, toString r.size, r.lastModified]) ∧
    listDataset fil resp
      = (if fil != [] then
          Dataset.subset ⟨listHeaders, listRows resp⟩ fil
         else ⟨listHeaders, listRows resp⟩) ∧
    (pyTruthy ofmt = true →
      ∀ s, env.exportFn (ofmt.getD "") (listDataset fil resp) = .ok s →
        (get_files env workflow fil ofmt tok fs).echoes = [plainEcho s]) ∧
    (pyTruthy ofmt = false →
      ∀ s, env.tablePrinter listHeaders fil (listRows resp) = .ok s →
        (get_files env workflow fil ofmt tok fs).echoes = [plainEcho s]) := by
  refine ⟨rfl, rfl, ?_, ?_⟩
  · intro hof s hs
    simp only [get_files, ht, hw, hof, hresp, Bool.not_true, Bool.false_eq_true,
      if_false, if_true]
    rw [hs]
  · intro hof s hs
    simp only [get_files, ht, hw, hof, hresp, Bool.not_true, Bool.false_eq_true,
      if_false, if_true]
    rw [hs]

/-- Witness for C6 at concrete invocations of both output branches. -/
theorem list_success_projection_witness :
    (get_files okEnv (some "w") ["name"] (some "json") (some "tok") emptyFS).echoes
      = [plainEcho "serialized"] ∧
    (get_files okEnv (some "w") ["name"] none (some "tok") emptyFS).echoes
      = [plainEcho "table"] :=
  ⟨(list_success_projection_and_output okEnv (some "w") (some "tok") (some "json")
      ["name"] emptyFS [⟨"a.txt", 10, "t1"⟩] rfl rfl rfl).2.2.1 rfl "serialized" rfl,
   (list_success_projection_and_output okEnv (some "w") (some "tok") none
      ["name"] emptyFS [⟨"a.txt", 10, "t1"⟩] rfl rfl rfl).2.2.2 rfl "table" rfl⟩

/-- C7: any exception raised by the remote listing call or during output
formatting is caught and reported as the red error-stream message naming the
workflow and carrying the exception text; and no command ever escalates an
error to the process exit code: every command exits 0 whenever a token is
present, 1 otherwise. -/
theorem list_errors_caught_and_exit_discipline (env : Env) (workflow tok ofmt : Option String)
    (fil : List String) (outdir : String) (fs : FS) :
    (pyTruthy tok = true → pyTruthy workflow = true →
      ∀ e, env.client.get_files (workflow.getD "") (tok.getD "") = .error e →
        (get_files env workflow fil ofmt tok fs).echoes
          = [redErrEcho (listFailMsg (workflow.getD "") e)] ∧
        (get_files env workflow fil ofmt tok fs).exit = 0) ∧
    (pyTruthy tok = true → pyTruthy workflow = true → pyTruthy ofmt = true →
      ∀ resp e, env.client.get_files (workflow.getD "") (tok.getD "") = .ok resp →
        env.exportFn (ofmt.getD "") (listDataset fil resp) = .error e →
        (get_files env workflow fil ofmt tok fs).echoes
          = [redErrEcho (listFailMsg (workflow.getD "") e)]) ∧
    (pyTruthy tok = true → pyTruthy workflow = true → pyTruthy ofmt = false →
      ∀ resp e, env.client.get_files (workflow.getD "") (tok.getD "") = .ok resp →
        env.tablePrinter listHeaders fil (listRows resp) = .error e →
        (get_files env workflow fil ofmt tok fs).echoes
          = [redErrEcho (listFailMsg (workflow.getD "") e)]) ∧
    (get_files env workflow fil ofmt tok fs).exit = (if pyTruthy tok then 0 else 1) ∧
    (download_files env workflow fil outdir tok fs).exit = (if pyTruthy tok then 0 else 1) ∧
    (upload_files env workflow fil tok fs).exit = (if pyTruthy tok then 0 else 1) := by
  refine ⟨?_, ?_, ?_, ?_, ?_, ?_⟩
  · intro htk hwf e he
    simp only [get_files, htk, hwf, he, Bool.not_true, Bool.false_eq_true, if_false, if_true]
    refine ⟨?_, ?_⟩ <;> first | rfl | trivial
  · intro htk hwf hof resp e hresp he
    simp only [get_files, htk, hwf, hof, hresp, Bool.not_true, Bool.false_eq_true,
      if_false, if_true]
    rw [he]
  · intro htk hwf hof resp e hresp he
    simp only [get_files, htk, hwf, hof, hresp, Bool.not_true, Bool.false_eq_true,
      if_false, if_true]
    rw [he]
  · by_cases htk : pyTruthy tok = true
    · simp only [get_files, htk, Bool.not_true, Bool.false_eq_true, if_false, if_true]
      repeat' split
      all_goals rfl
    · simp only [Bool.not_eq_true] at htk
      simp [get_files, htk]
  · by_cases htk : pyTruthy tok = true
    · simp only [download_files, htk, Bool.not_true, Bool.false_eq_true, if_false, if_true]
      repeat' split
      all_goals rfl
    · simp only [Bool.not_eq_true] at htk
      simp [download_files, htk]
  · by_cases htk : pyTruthy tok = true
    · simp only [upload_files, htk, Bool.not_true, Bool.false_eq_true, if_false, if_true]
      repeat' split
      all_goals rfl
    · simp only [Bool.not_eq_true] at htk
      simp [upload_files, htk]

/-- Witness for C7 at a concrete invocation whose listing call raises. -/
theorem list_errors_caught_witness :
    ((get_files listErrEnv (some "w") [] none (some "tok") emptyFS).echoes
      = [redErrEcho (listFailMsg "w" (.other "down"))] ∧
     (get_files listErrEnv (some "w") [] none (some "tok") emptyFS).exit = 0) ∧
    (download_files listErrEnv (some "w") [] "/tmp/x" (some "tok") emptyFS).exit
      = (if pyTruthy (some "tok") then 0 else 1) ∧
    (upload_files listErrEnv (some "w") [] (some "tok") emptyFS).exit
      = (if pyTruthy (some "tok") then 0 else 1) :=
  ⟨(list_errors_caught_and_exit_discipline listErrEnv (some "w") (some "tok") none
      [] "/tmp/x" emptyFS).1 rfl rfl (.other "down") rfl,
   (list_errors_caught_and_exit_discipline listErrEnv (some "w") (some "tok") none
      [] "/tmp/x" emptyFS).2.2.2.2.1,
   (list_errors_caught_and_exit_discipline listErrEnv (some "w") (some "tok") none
      [] "/tmp/x" emptyFS).2.2.2.2.2⟩

/-- Every log event of one download-loop iteration is either the
informational download message or the traceback/text of an exception coming
from the remote call, the failed write, or the failed directory creation. -/
theorem download_step_logs_shape (env : Env) (w tok outdir f : String) (fs : FS) :
    ∀ ev ∈ (download_step env w tok outdir f fs).logs,
      ev = LogEvent.infoFileDownloaded f outdir ∨
      ∃ e : Exc, (ev = LogEvent.debugTraceback e ∨ ev = LogEvent.debugExcStr e) ∧
        (env.client.download_file w f tok = .error e ∨
         e = Exc.osError (ospath_join outdir f) ∨ e = Exc.osError "") := by
  intro ev hev
  unfold download_step at hev
  rcases hdl : env.client.download_file w f tok with e | b <;>
    simp only [hdl] at hev
  · simp only [List.mem_cons, List.not_mem_nil, or_false] at hev
    rcases hev with rfl | rfl
    · exact Or.inr ⟨e, Or.inl rfl, Or.inl rfl⟩
    · exact Or.inr ⟨e, Or.inr rfl, Or.inl rfl⟩
  · by_cases hex : fs.existsPath (dirname (ospath_join outdir f)) = true
    · simp only [hex, if_true] at hev
      by_cases hwr : env.writable (ospath_join outdir f) = true
      · simp only [hwr, if_true] at hev
        simp only [List.mem_cons, List.not_mem_nil, or_false] at hev
        exact Or.inl hev
      · simp only [Bool.not_eq_true] at hwr
        simp only [hwr, Bool.false_eq_true, if_false, List.mem_append, List.mem_cons,
          List.not_mem_nil, or_false] at hev
        rcases hev with rfl | rfl | rfl
        · exact Or.inl rfl
        · exact Or.inr ⟨_, Or.inl rfl, Or.inr (Or.inl rfl)⟩
        · exact Or.inr ⟨_, Or.inr rfl, Or.inr (Or.inl rfl)⟩
    · simp only [Bool.not_eq_true] at hex
      simp only [hex, Bool.false_eq_true, if_false] at hev
      rcases hmk : os_makedirs fs (dirname (ospath_join outdir f)) with e | fs1 <;>
        simp only [hmk] at hev
      · obtain rfl := os_makedirs_error fs _ e hmk
        simp only [List.mem_append, List.mem_cons, List.not_mem_nil, or_false] at hev
        rcases hev with rfl | rfl | rfl
        · exact Or.inl rfl
        · exact Or.inr ⟨_, Or.inl rfl, Or.inr (Or.inr rfl)⟩
        · exact Or.inr ⟨_, Or.inr rfl, Or.inr (Or.inr rfl)⟩
      · by_cases hwr : env.writable (ospath_join outdir f) = true
        · simp only [hwr, if_true] at hev
          simp only [List.mem_cons, List.not_mem_nil, or_false] at hev
          exact Or.inl hev
        · simp only [Bool.not_eq_true] at hwr
          simp only [hwr, Bool.false_eq_true, if_false, List.mem_append, List.mem_cons,
            List.not_mem_nil, or_false] at hev
          rcases hev with rfl | rfl | rfl
          · exact Or.inl rfl
          · exact Or.inr ⟨_, Or.inl rfl, Or.inr (Or.inl rfl)⟩
          · exact Or.inr ⟨_, Or.inr rfl, Or.inr (Or.inl rfl)⟩

/-- Every log event of the download loop comes from one of its files, with
the per-iteration shape. -/
theorem download_loop_logs_shape (env : Env) (w tok outdir : String)
    (files : List String) (fs : FS) :
    ∀ ev ∈ (download_loop env w tok outdir files fs).logs,
      ∃ f, f ∈ files ∧
        (ev = LogEvent.infoFileDownloaded f outdir ∨
         ∃ e : Exc, (ev = LogEvent.debugTraceback e ∨ ev = LogEvent.debugExcStr e) ∧
           (env.client.download_file w f tok = .error e ∨
            e = Exc.osError (ospath_join outdir f) ∨ e = Exc.osError "")) := by
  induction files generalizing fs with
  | nil => intro ev hev; simp [download_loop] at hev
  | cons f rest ih =>
      intro ev hev
      simp only [download_loop, List.mem_append] at hev
      rcases hev with h1 | h2
      · exact ⟨f, List.mem_cons_self f rest, download_step_logs_shape env w tok outdir f fs ev h1⟩
      · obtain ⟨f', hf', h⟩ := ih _ ev h2
        exact ⟨f', List.mem_cons_of_mem f hf', h⟩

/-- Every log event of one upload-loop iteration is the traceback/text of an
exception raised by the remote upload call. -/
theorem upload_step_logs_shape (env : Env) (w tok f : String) (fs : FS) :
    ∀ ev ∈ (upload_step env w tok f fs).logs,
      ∃ e : Exc, (ev = LogEvent.debugTraceback e ∨ ev = LogEvent.debugExcStr e) ∧
        env.client.upload_to_server w f tok = .error e := by
  intro ev hev
  unfold upload_step at hev
  rcases hup : env.client.upload_to_server w f tok with e | resp <;>
    simp only [hup] at hev
  · simp only [List.mem_cons, List.not_mem_nil, or_false] at hev
    rcases hev with rfl | rfl
    · exact ⟨e, Or.inl rfl, rfl⟩
    · exact ⟨e, Or.inr rfl, rfl⟩
  · simp at hev

/-- Every log event of the upload loop comes from one of its files. -/
theorem upload_loop_logs_shape (env : Env) (w tok : String)
    (files : List String) (fs : FS) :
    ∀ ev ∈ (upload_loop env w tok files fs).logs,
      ∃ f, f ∈ files ∧
        ∃ e : Exc, (ev = LogEvent.debugTraceback e ∨ ev = LogEvent.debugExcStr e) ∧
          env.client.upload_to_server w f tok = .error e := by
  induction files generalizing fs with
  | nil => intro ev hev; simp [upload_loop] at hev
  | cons f rest ih =>
      intro ev hev
      simp only [upload_loop, List.mem_append] at hev
      rcases hev with h1 | h2
      · exact ⟨f, List.mem_cons_self f rest, upload_step_logs_shape env w tok f fs ev h1⟩
      · obtain ⟨f', hf', h⟩ := ih _ ev h2
        exact ⟨f', List.mem_cons_of_mem f hf', h⟩

/-- Decomposition of the list command's log trace: the unconditional
parameter dump followed only by the workflow-selected notice and
tracebacks/texts of exceptions raised by the collaborators. -/
theorem get_files_logs_split (env : Env) (workflow : Option String) (fil : List String)
    (ofmt tok : Option String) (fs : FS) :
    ∃ rest, (get_files env workflow fil ofmt tok fs).logs
        = listParamDump workflow fil ofmt tok ++ rest ∧
      ∀ ev ∈ rest,
        ev = LogEvent.infoWorkflowSelected (workflow.getD "") ∨
        ∃ e : Exc, (ev = LogEvent.debugTraceback e ∨ ev = LogEvent.debugExcStr e) ∧
          (env.client.get_files (workflow.getD "") (tok.getD "") = .error e ∨
           (∃ ds, env.exportFn (ofmt.getD "") ds = .error e) ∨
           (∃ hd fl dt, env.tablePrinter hd fl dt = .error e)) := by
  unfold get_files
  by_cases htk : pyTruthy tok = true
  · simp only [htk, Bool.not_true, Bool.false_eq_true, if_false]
    by_cases hwf : pyTruthy workflow = true
    · simp only [hwf, if_true]
      rcases hg : env.client.get_files (workflow.getD "") (tok.getD "") with e | resp
      · refine ⟨[LogEvent.infoWorkflowSelected (workflow.getD ""),
                 LogEvent.debugTraceback e, LogEvent.debugExcStr e], by simp, ?_⟩
        intro ev hev
        simp only [List.mem_cons, List.not_mem_nil, or_false] at hev
        rcases hev with rfl | rfl | rfl
        · exact Or.inl rfl
        · exact Or.inr ⟨e, Or.inl rfl, Or.inl rfl⟩
        · exact Or.inr ⟨e, Or.inr rfl, Or.inl rfl⟩
      · by_cases hof : pyTruthy ofmt = true
        · simp only [hof, if_true]
          rcases hx : env.exportFn (ofmt.getD "") (listDataset fil resp) with e | s
          · refine ⟨[LogEvent.infoWorkflowSelected (workflow.getD ""),
                     LogEvent.debugTraceback e, LogEvent.debugExcStr e], by simp, ?_⟩
            intro ev hev
            simp only [List.mem_cons, List.not_mem_nil, or_false] at hev
            rcases hev with rfl | rfl | rfl
            · exact Or.inl rfl
            · exact Or.inr ⟨e, Or.inl rfl, Or.inr (Or.inl ⟨listDataset fil resp, hx⟩)⟩
            · exact Or.inr ⟨e, Or.inr rfl, Or.inr (Or.inl ⟨listDataset fil resp, hx⟩)⟩
          · refine ⟨[LogEvent.infoWorkflowSelected (workflow.getD "")], by simp, ?_⟩
            intro ev hev
            simp only [List.mem_cons, List.not_mem_nil, or_false] at hev
            subst hev
            exact Or.inl rfl
        · simp only [Bool.not_eq_true] at hof
          simp only [hof, Bool.false_eq_true, if_false]
          rcases hx : env.tablePrinter listHeaders fil (listRows resp) with e | s
          · refine ⟨[LogEvent.infoWorkflowSelected (workflow.getD ""),
                     LogEvent.debugTraceback e, LogEvent.debugExcStr e], by simp, ?_⟩
            intro ev hev
            simp only [List.mem_cons, List.not_mem_nil, or_false] at hev
            rcases hev with rfl | rfl | rfl
            · exact Or.inl rfl
            · exact Or.inr ⟨e, Or.inl rfl,
                Or.inr (Or.inr ⟨listHeaders, fil, listRows resp, hx⟩)⟩
            · exact Or.inr ⟨e, Or.inr rfl,
                Or.inr (Or.inr ⟨listHeaders, fil, listRows resp, hx⟩)⟩
          · refine ⟨[LogEvent.infoWorkflowSelected (workflow.getD "")], by simp, ?_⟩
            intro ev hev
            simp only [List.mem_cons, List.not_mem_nil, or_false] at hev
            subst hev
            exact Or.inl rfl
    · simp only [Bool.not_eq_true] at hwf
      exact ⟨[], by simp [hwf], by simp⟩
  · simp only [Bool.not_eq_true] at htk
    exact ⟨[], by simp [htk], by simp⟩

/-- Decomposition of the download command's log trace: the unconditional
parameter dump followed only by per-file events of the download loop. -/
theorem download_files_logs_split (env : Env) (workflow : Option String)
    (file_ : List String) (outdir : String) (tok : Option String) (fs : FS) :
    ∃ rest, (download_files env workflow file_ outdir tok fs).logs
        = downloadParamDump workflow file_ outdir tok ++ rest ∧
      ∀ ev ∈ rest,
        ∃ f, f ∈ file_ ∧
          (ev = LogEvent.infoFileDownloaded f outdir ∨
           ∃ e : Exc, (ev = LogEvent.debugTraceback e ∨ ev = LogEvent.debugExcStr e) ∧
             (env.client.download_file (workflow.getD "") f (tok.getD "") = .error e ∨
              e = Exc.osError (ospath_join outdir f) ∨ e = Exc.osError "")) := by
  unfold download_files
  by_cases htk : pyTruthy tok = true
  · simp only [htk, Bool.not_true, Bool.false_eq_true, if_false]
    by_cases hwf : pyTruthy workflow = true
    · simp only [hwf, if_true]
      exact ⟨(download_loop env (workflow.getD "") (tok.getD "") outdir file_ fs).logs,
        rfl, download_loop_logs_shape env (workflow.getD "") (tok.getD "") outdir file_ fs⟩
    · simp only [Bool.not_eq_true] at hwf
      exact ⟨[], by simp [hwf], by simp⟩
  · simp only [Bool.not_eq_true] at htk
    exact ⟨[], by simp [htk], by simp⟩

/-- Decomposition of the upload command's log trace: the unconditional
parameter dump followed only by per-file upload-failure events. -/
theorem upload_files_logs_split (env : Env) (workflow : Option String)
    (filenames : List String) (tok : Option String) (fs : FS) :
    ∃ rest, (upload_files env workflow filenames tok fs).logs
        = uploadParamDump workflow filenames tok ++ rest ∧
      ∀ ev ∈ rest,
        ∃ f, f ∈ filenames ∧
          ∃ e : Exc, (ev = LogEvent.debugTraceback e ∨ ev = LogEvent.debugExcStr e) ∧
            env.client.upload_to_server (workflow.getD "") f (tok.getD "") = .error e := by
  unfold upload_files
  by_cases htk : pyTruthy tok = true
  · simp only [htk, Bool.not_true, Bool.false_eq_true, if_false]
    by_cases hwf : pyTruthy workflow = true
    · simp only [hwf, if_true]
      exact ⟨(upload_loop env (workflow.getD "") (tok.getD "") filenames fs).logs,
        rfl, upload_loop_logs_shape env (workflow.getD "") (tok.getD "") filenames fs⟩
    · simp only [Bool.not_eq_true] at hwf
      exact ⟨[], by simp [hwf], by simp⟩
  · simp only [Bool.not_eq_true] at htk
    exact ⟨[], by simp [htk], by simp⟩

/-- C8 counterexample: the unconditional debug dump of all command
parameters logs the access token in cleartext, so it is false that the
token's value appears in no log message. -/
theorem token_logged_in_param_dump :
    ¬ (∀ ev ∈ (get_files okEnv (some "w") [] none (some "secret") emptyFS).logs,
        ev.mentions "secret" = false) := by
  decide

/-- C8 amended: the access token's value appears in the module's log trace
only as the value of the unconditional access-token parameter-dump line:
whenever the token does not coincide with the other parameters' renderings,
the file and directory data, or the text of the exceptions the collaborators
raise, the log events carrying the token are exactly that one line, for all
three commands. -/
theorem token_only_logged_in_param_dump
    (env : Env) (t : String) (workflow ofmt : Option String)
    (fil dfiles ufiles : List String) (outdir : String) (fs : FS)
    (h1 : t ≠ "reana-client.files.list")
    (h2 : t ≠ "reana-client.files.download")
    (h3 : t ≠ "reana-client.files.upload")
    (h4 : pyStrOpt workflow ≠ t)
    (h5 : pyStrTuple fil ≠ t)
    (h6 : pyStrOpt ofmt ≠ t)
    (h7 : pyStrTuple dfiles ≠ t)
    (h8 : outdir ≠ t)
    (h9 : pyStrTuple ufiles ≠ t)
    (h10 : t ≠ "")
    (h11 : ∀ e, env.client.get_files (workflow.getD "") t = .error e → e.str ≠ t)
    (h12 : ∀ fmt ds e, env.exportFn fmt ds = .error e → e.str ≠ t)
    (h13 : ∀ hs fl dt e, env.tablePrinter hs fl dt = .error e → e.str ≠ t)
    (h14 : ∀ f e, env.client.download_file (workflow.getD "") f t = .error e → e.str ≠ t)
    (h15 : ∀ f, f ∈ dfiles → f ≠ t)
    (h16 : ∀ f, f ∈ dfiles → ospath_join outdir f ≠ t)
    (h17 : ∀ f e, env.client.upload_to_server (workflow.getD "") f t = .error e → e.str ≠ t) :
    (get_files env workflow fil ofmt (some t) fs).logs.filter (fun ev => ev.mentions t)
      = [LogEvent.debugParam "access_token" t] ∧
    (download_files env workflow dfiles outdir (some t) fs).logs.filter
        (fun ev => ev.mentions t) = [LogEvent.debugParam "access_token" t] ∧
    (upload_files env workflow ufiles (some t) fs).logs.filter
        (fun ev => ev.mentions t) = [LogEvent.debugParam "access_token" t] := by
  have hwne : workflow.getD "" ≠ t := by
    cases workflow with
    | none => exact fun h => h10 h.symm
    | some w => exact h4
  have mTb : ∀ e : Exc, e.str ≠ t → LogEvent.mentions t (.debugTraceback e) = false := by
    intro e h
    simp only [LogEvent.mentions]
    exact beq_eq_false_iff_ne.mpr h
  have mStr : ∀ e : Exc, e.str ≠ t → LogEvent.mentions t (.debugExcStr e) = false := by
    intro e h
    simp only [LogEvent.mentions]
    exact beq_eq_false_iff_ne.mpr h
  refine ⟨?_, ?_, ?_⟩
  · obtain ⟨rest, hsplit, hshape⟩ := get_files_logs_split env workflow fil ofmt (some t) fs
    rw [hsplit, List.filter_append]
    have hnil : rest.filter (fun ev => ev.mentions t) = [] := by
      refine List.filter_eq_nil_iff.mpr ?_
      intro ev hev
      rcases hshape ev hev with rfl | ⟨e, hf, hsrc⟩
      · simp only [LogEvent.mentions]
        simp [beq_eq_false_iff_ne.mpr hwne]
      · have hst : e.str ≠ t := by
          rcases hsrc with hg | ⟨ds, hx⟩ | ⟨hs, fl, dt, hx⟩
          · exact h11 e hg
          · exact h12 _ ds e hx
          · exact h13 hs fl dt e hx
        rcases hf with rfl | rfl
        · simp [mTb e hst]
        · simp [mStr e hst]
    rw [hnil]
    simp [listParamDump, List.filter_cons, LogEvent.mentions,
      Ne.symm h1, h4, h5, h6]
  · obtain ⟨rest, hsplit, hshape⟩ :=
      download_files_logs_split env workflow dfiles outdir (some t) fs
    rw [hsplit, List.filter_append]
    have hnil : rest.filter (fun ev => ev.mentions t) = [] := by
      refine List.filter_eq_nil_iff.mpr ?_
      intro ev hev
      obtain ⟨f, hfmem, hsh⟩ := hshape ev hev
      rcases hsh with rfl | ⟨e, hf, hsrc⟩
      · simp only [LogEvent.mentions]
        simp [beq_eq_false_iff_ne.mpr (h15 f hfmem), beq_eq_false_iff_ne.mpr h8]
      · have hst : e.str ≠ t := by
          rcases hsrc with hg | rfl | rfl
          · exact h14 f e hg
          · exact h16 f hfmem
          · exact Ne.symm h10
        rcases hf with rfl | rfl
        · simp [mTb e hst]
        · simp [mStr e hst]
    rw [hnil]
    simp [downloadParamDump, List.filter_cons, LogEvent.mentions,
      Ne.symm h2, h4, h7, h8]
  · obtain ⟨rest, hsplit, hshape⟩ := upload_files_logs_split env workflow ufiles (some t) fs
    rw [hsplit, List.filter_append]
    have hnil : rest.filter (fun ev => ev.mentions t) = [] := by
      refine List.filter_eq_nil_iff.mpr ?_
      intro ev hev
      obtain ⟨f, hfmem, e, hf, hsrc⟩ := hshape ev hev
      have hst : e.str ≠ t := h17 f e hsrc
      rcases hf with rfl | rfl
      · simp [mTb e hst]
      · simp [mStr e hst]
    rw [hnil]
    simp [uploadParamDump, List.filter_cons, LogEvent.mentions,
      Ne.symm h3, h4, h9]

/-- Witness for the amended C8 at concrete invocations of the three
commands. -/
theorem token_only_logged_witness :
    (get_files okEnv (some "w") ["name"] none (some "secret") emptyFS).logs.filter
        (fun ev => ev.mentions "secret") = [LogEvent.debugParam "access_token" "secret"] ∧
    (download_files okEnv (some "w") ["f1"] "/tmp/x" (some "secret") emptyFS).logs.filter
        (fun ev => ev.mentions "secret") = [LogEvent.debugParam "access_token" "secret"] ∧
    (upload_files okEnv (some "w") ["g1"] (some "secret") emptyFS).logs.filter
        (fun ev => ev.mentions "secret") = [LogEvent.debugParam "access_token" "secret"] :=
  token_only_logged_in_param_dump okEnv "secret" (some "w") none ["name"] ["f1"] ["g1"]
    "/tmp/x" emptyFS (by decide) (by decide) (by decide) (by decide) (by decide)
    (by decide) (by decide) (by decide) (by decide) (by decide)
    (fun e h => nomatch h) (fun fmt ds e h => nomatch h) (fun hs fl dt e h => nomatch h)
    (fun f e h => nomatch h) (by decide) (by decide) (fun f e h => nomatch h)
